import Mathlib

/-!
Shallow embedding of `job_hunter.py` (Crypto Job Hunter): the `Job` data
model with its `__post_init__` identity derivation (MD5 of
`title_company_url` when no native id is supplied), the `ScoringEngine`
(four sub-scores, weighted sum, clamp), the exclusion filter, the retrying
HTTP `get` loop, the SQLite-backed dedup store modelled as a list of rows,
and the `JobHunter.run` pipeline.  Python floats are modelled as `ℚ`,
`datetime` values as integer Unix timestamps (seconds), and
`timedelta.days` as floor division by 86400.
-/

namespace JobHunterModel

/-- Substring test on character lists: `leadsList p l` is true when `p` is a
prefix of `l` (Python `str.startswith` on the remaining text). -/
def leadsList : List Char → List Char → Bool
  | [], _ => true
  | _ :: _, [] => false
  | a :: as, b :: bs => a = b && leadsList as bs

/-- `hasSubstr p l` is true when `p` occurs contiguously inside `l`. -/
def hasSubstr (p : List Char) : List Char → Bool
  | [] => p.isEmpty
  | c :: rest => leadsList p (c :: rest) || hasSubstr p rest

/-- Python's `pat in s` substring containment on strings. -/
def strContains (s pat : String) : Bool :=
  hasSubstr pat.toList s.toList

/-- Python `str.lower()` (modelled on the basic-latin range of
`Char.toLower`, which is what every keyword in this code base uses). -/
def lowerStr (s : String) : String :=
  String.mk (s.toList.map Char.toLower)

/-- `Job` dataclass of `job_hunter.py` (line 29).  `posted_date` is a Unix
timestamp in seconds; `score` is the mutable float field, updated once by the
pipeline; `job_id` is `None` or the source-native identifier. -/
structure Job where
  title : String
  company : String
  location : String
  url : String
  description : String := ""
  posted_date : Option Int := none
  experience_level : Option String := none
  job_type : Option String := none
  salary_range : Option String := none
  source : String := ""
  score : ℚ := 0
  job_id : Option String := none
deriving DecidableEq, Repr

/-- The `scoring` section of the configuration consumed by `ScoringEngine`. -/
structure ScoringWeights where
  title_match_weight : ℚ
  keyword_match_weight : ℚ
  location_match_weight : ℚ
  recency_weight : ℚ
  min_score : ℚ
  max_results : Nat
deriving Repr

/-- The `filters.location` sub-configuration.  The `.get(key, default)`
accesses in the Python code are folded into field defaults. -/
structure LocationConfig where
  remote_only : Bool := false
  preferred_locations : List String := []
  excluded_locations : List String := []
deriving Repr

/-- The `filters` section of the configuration consumed by `ScoringEngine`. -/
structure Filters where
  title_keywords : List String := []
  preferred_keywords : List String := []
  exclude_keywords : List String := []
  required_keywords : List String := []
  experience_levels : List String := []
  location : LocationConfig := {}
deriving Repr

/-- `ScoringEngine._score_title_match` (line 214): empty title scores 0;
otherwise the fraction of configured title keywords that occur
(case-insensitively) in the title, times 100; neutral 50 when no title
keywords are configured. -/
def score_title_match (f : Filters) (title : String) : ℚ :=
  if title = "" then 0
  else
    let title_lower := lowerStr title
    let num_matches := (f.title_keywords.filter
      (fun kw => strContains title_lower (lowerStr kw))).length
    let total_keywords := f.title_keywords.length
    if total_keywords = 0 then 50
    else (num_matches : ℚ) / (total_keywords : ℚ) * 100

/-- `ScoringEngine._score_keyword_match` (line 232): empty description scores
0; otherwise the fraction of configured preferred keywords present in the
description, times 100, capped at 100; neutral 50 when none configured. -/
def score_keyword_match (f : Filters) (description : String) : ℚ :=
  if description = "" then 0
  else
    let description_lower := lowerStr description
    let num_matches := (f.preferred_keywords.filter
      (fun kw => strContains description_lower (lowerStr kw))).length
    let total_keywords := f.preferred_keywords.length
    if total_keywords = 0 then 50
    else min 100 ((num_matches : ℚ) / (max 1 total_keywords : Nat) * 100)

/-- `ScoringEngine._score_location_match` (line 251): empty location is
neutral 50; any excluded-location substring match vetoes to 0; with
`remote_only`, remote-indicating words give 100 and anything else 10;
otherwise a preferred-location match gives 100, else neutral 50. -/
def score_location_match (f : Filters) (location : String) : ℚ :=
  if location = "" then 50
  else
    let location_lower := lowerStr location
    if f.location.excluded_locations.any
        (fun excluded => strContains location_lower (lowerStr excluded)) then 0
    else if f.location.remote_only then
      if ["remote", "worldwide", "anywhere", "distributed"].any
          (fun kw => strContains location_lower kw) then 100
      else 10
    else if f.location.preferred_locations.any
        (fun preferred => strContains location_lower (lowerStr preferred)) then 100
    else 50

/-- `ScoringEngine._score_recency` (line 279): age in whole days (Python
`timedelta.days` is floor division of the elapsed seconds) bucketed to
100/80/60/30/10; unknown date is neutral 50. -/
def score_recency (now : Int) (posted_date : Option Int) : ℚ :=
  match posted_date with
  | none => 50
  | some p =>
    let days_old : Int := Int.fdiv (now - p) 86400
    if days_old ≤ 1 then 100
    else if days_old ≤ 7 then 80
    else if days_old ≤ 30 then 60
    else if days_old ≤ 90 then 30
    else 10

/-- `ScoringEngine.score_job` (line 192): weighted sum of the four
sub-scores (each weight divided by 100), clamped to [0, 100]. -/
def score_job (w : ScoringWeights) (f : Filters) (now : Int) (j : Job) : ℚ :=
  let total_score :=
    score_title_match f j.title * (w.title_match_weight / 100)
    + score_keyword_match f j.description * (w.keyword_match_weight / 100)
    + score_location_match f j.location * (w.location_match_weight / 100)
    + score_recency now j.posted_date * (w.recency_weight / 100)
  min 100 (max 0 total_score)

/-- `ScoringEngine.should_exclude_job` (line 297): over the lowercased
`title ++ " " ++ description`, exclude when some exclude-keyword occurs, or
some required keyword is missing, or the experience-level allow-list is
non-empty and the job declares a level (non-`None`, non-empty — Python
truthiness) whose lowercase form is not in the lowercased allow-list. -/
def should_exclude_job (f : Filters) (j : Job) : Bool :=
  let combined_text := lowerStr (j.title ++ " " ++ j.description)
  f.exclude_keywords.any
    (fun kw => strContains combined_text (lowerStr kw))
  || f.required_keywords.any
    (fun kw => !strContains combined_text (lowerStr kw))
  || (!f.experience_levels.isEmpty &&
      (match j.experience_level with
       | none => false
       | some lvl =>
         lvl ≠ "" &&
         !((f.experience_levels.map lowerStr).contains (lowerStr lvl))))

/-- UTF-8 encoding of one character, as Python `str.encode()` emits it. -/
def utf8EncodeCharBytes (c : Char) : List Nat :=
  let n := c.toNat
  if n < 128 then [n]
  else if n < 2048 then [192 ||| (n >>> 6), 128 ||| (n &&& 63)]
  else if n < 65536 then
    [224 ||| (n >>> 12), 128 ||| ((n >>> 6) &&& 63), 128 ||| (n &&& 63)]
  else
    [240 ||| (n >>> 18), 128 ||| ((n >>> 12) &&& 63),
     128 ||| ((n >>> 6) &&& 63), 128 ||| (n &&& 63)]

/-- UTF-8 byte sequence of a string (Python `content.encode()`). -/
def utf8Bytes (s : String) : List Nat :=
  (s.toList.map utf8EncodeCharBytes).flatten

/-- Truncation to 32 bits. -/
def u32 (n : Nat) : Nat := n % (2 ^ 32)

/-- 32-bit left rotation (input assumed below `2 ^ 32`). -/
def rotl32 (x c : Nat) : Nat := u32 (x <<< c) ||| (u32 x >>> (32 - c))

/-- The 64 sine-derived MD5 round constants. -/
def md5K : List Nat :=
  [3614090360, 3905402710, 606105819, 3250441966, 4118548399, 1200080426,
   2821735955, 4249261313, 1770035416, 2336552879, 4294925233, 2304563134,
   1804603682, 4254626195, 2792965006, 1236535329, 4129170786, 3225465664,
   643717713, 3921069994, 3593408605, 38016083, 3634488961, 3889429448,
   568446438, 3275163606, 4107603335, 1163531501, 2850285829, 4243563512,
   1735328473, 2368359562, 4294588738, 2272392833, 1839030562, 4259657740,
   2763975236, 1272893353, 4139469664, 3200236656, 681279174, 3936430074,
   3572445317, 76029189, 3654602809, 3873151461, 530742520, 3299628645,
   4096336452, 1126891415, 2878612391, 4237533241, 1700485571, 2399980690,
   4293915773, 2240044497, 1873313359, 4264355552, 2734768916, 1309151649,
   4149444226, 3174756917, 718787259, 3951481745]

/-- The 64 MD5 per-round left-rotation amounts. -/
def md5S : List Nat :=
  [7, 12, 17, 22, 7, 12, 17, 22, 7, 12, 17, 22, 7, 12, 17, 22,
   5, 9, 14, 20, 5, 9, 14, 20, 5, 9, 14, 20, 5, 9, 14, 20,
   4, 11, 16, 23, 4, 11, 16, 23, 4, 11, 16, 23, 4, 11, 16, 23,
   6, 10, 15, 21, 6, 10, 15, 21, 6, 10, 15, 21, 6, 10, 15, 21]

/-- Little-endian interpretation of a byte list as a machine word. -/
def leWord (bs : List Nat) : Nat :=
  bs.foldr (fun b acc => acc * 256 + b) 0

/-- The sixteen 32-bit little-endian message words of one 64-byte chunk. -/
def chunkWords (chunk : List Nat) : List Nat :=
  (List.range 16).map (fun g => leWord ((chunk.drop (4 * g)).take 4))

/-- One of the 64 MD5 mixing steps, acting on the state `(a, b, c, d)`. -/
def md5Mix (m : List Nat) (st : Nat × Nat × Nat × Nat) (i : Nat) :
    Nat × Nat × Nat × Nat :=
  let a := st.1
  let b := st.2.1
  let c := st.2.2.1
  let d := st.2.2.2
  let fg : Nat × Nat :=
    if i < 16 then ((b &&& c) ||| ((0xFFFFFFFF ^^^ b) &&& d), i)
    else if i < 32 then
      ((d &&& b) ||| ((0xFFFFFFFF ^^^ d) &&& c), (5 * i + 1) % 16)
    else if i < 48 then (b ^^^ c ^^^ d, (3 * i + 5) % 16)
    else (c ^^^ (b ||| (0xFFFFFFFF ^^^ d)), (7 * i) % 16)
  let tmp := u32 (a + fg.1 + md5K.getD i 0 + m.getD fg.2 0)
  let nb := u32 (b + rotl32 tmp (md5S.getD i 0))
  (d, nb, b, c)

/-- MD5 compression of one 64-byte chunk into the running state. -/
def md5Chunk (st : Nat × Nat × Nat × Nat) (chunk : List Nat) :
    Nat × Nat × Nat × Nat :=
  let m := chunkWords chunk
  let r := (List.range 64).foldl (md5Mix m) st
  (u32 (st.1 + r.1), u32 (st.2.1 + r.2.1),
   u32 (st.2.2.1 + r.2.2.1), u32 (st.2.2.2 + r.2.2.2))

/-- MD5 padding: a `0x80` byte, zeros to 56 mod 64, then the bit length as
a 64-bit little-endian quantity. -/
def md5Pad (msg : List Nat) : List Nat :=
  let len := msg.length
  let zeros := (119 - len % 64) % 64
  let bitLen := (len * 8) % (2 ^ 64)
  msg ++ [128] ++ List.replicate zeros 0
      ++ (List.range 8).map (fun i => (bitLen >>> (8 * i)) % 256)

/-- Split a byte list into successive 64-byte chunks, with a fuel argument
(any bound on the list length) making the recursion structural. -/
def chunks64Go : Nat → List Nat → List (List Nat)
  | _, [] => []
  | 0, _ :: _ => []
  | fuel + 1, l => l.take 64 :: chunks64Go fuel (l.drop 64)

/-- Split a byte list into successive 64-byte chunks. -/
def chunks64 (l : List Nat) : List (List Nat) :=
  chunks64Go l.length l

/-- The 16 digest bytes of the MD5 of a byte message. -/
def md5Bytes (msg : List Nat) : List Nat :=
  let st := (chunks64 (md5Pad msg)).foldl md5Chunk
    (0x67452301, 0xefcdab89, 0x98badcfe, 0x10325476)
  (List.range 4).map (fun i => (st.1 >>> (8 * i)) % 256)
  ++ (List.range 4).map (fun i => (st.2.1 >>> (8 * i)) % 256)
  ++ (List.range 4).map (fun i => (st.2.2.1 >>> (8 * i)) % 256)
  ++ (List.range 4).map (fun i => (st.2.2.2 >>> (8 * i)) % 256)

/-- Lowercase hexadecimal digit. -/
def hexDigitChar (n : Nat) : Char :=
  if n < 10 then Char.ofNat (48 + n) else Char.ofNat (87 + n)

/-- Two-character lowercase hexadecimal rendering of one byte. -/
def byteHex (b : Nat) : List Char :=
  [hexDigitChar (b / 16), hexDigitChar (b % 16)]

/-- `hashlib.md5(s.encode()).hexdigest()`: lowercase 32-character hex digest. -/
def md5Hex (s : String) : String :=
  String.mk (((md5Bytes (utf8Bytes s)).map byteHex).flatten)

/-- `Job.__post_init__` (line 45): when `job_id` is absent or empty (Python
`not self.job_id`), it is replaced by the MD5 hex digest of
`title + "_" + company + "_" + url`; otherwise the native id is kept as is. -/
def Job.postInit (j : Job) : Job :=
  if j.job_id.getD "" = "" then
    { j with job_id := some (md5Hex (j.title ++ "_" ++ j.company ++ "_" ++ j.url)) }
  else j

/-- The attempt loop of `HttpClient.get` (line 88), driven by an oracle
`respond url attempt` giving the outcome of the HTTP request issued on
attempt number `attempt` (`Except.error` covers both network errors and the
non-2xx statuses surfaced by `raise_for_status`).  `fuel` is the number of
attempts still available, so `fuel = maxRetries + 1 - attempt`.  Returns the
final outcome, the list of back-off sleeps performed (seconds), and the
number of attempts made. -/
def httpGetLoop (respond : String → Nat → Except String String) (url : String)
    (request_delay : ℚ) : Nat → Nat → Except String String × List ℚ × Nat
  | 0, attempt => (Except.error "range exhausted", [], attempt)
  | fuel + 1, attempt =>
    match respond url attempt with
    | Except.ok r => (Except.ok r, [], attempt + 1)
    | Except.error e =>
      match fuel with
      | 0 => (Except.error e, [], attempt + 1)
      | _ + 1 =>
        let rest := httpGetLoop respond url request_delay fuel (attempt + 1)
        (rest.1, (2 ^ attempt : ℚ) * request_delay :: rest.2.1, rest.2.2)

/-- `HttpClient.get` (line 78): up to `max_retries + 1` attempts starting at
attempt 0; an intermediate failure sleeps `2 ^ attempt * request_delay` and
retries; the failure of the last attempt re-raises its underlying error. -/
def httpGet (respond : String → Nat → Except String String) (url : String)
    (request_delay : ℚ) (max_retries : Nat) :
    Except String String × List ℚ × Nat :=
  httpGetLoop respond url request_delay (max_retries + 1) 0

/-- One row of the `jobs` table (line 120).  `first_seen` and `last_seen`
model the SQLite `CURRENT_TIMESTAMP` columns. -/
structure DBRow where
  job_id : Option String
  title : String
  company : String
  location : String
  url : String
  description : String
  posted_date : Option Int
  experience_level : Option String
  job_type : Option String
  salary_range : Option String
  source : String
  score : ℚ
  first_seen : Int
  last_seen : Int
  is_new : Bool
deriving DecidableEq, Repr

/-- The `jobs` table, keyed by `job_id`. -/
def JobDB := List DBRow

/-- `JobDatabase.is_new_job` (line 145): no row with this `job_id` exists. -/
def is_new_job (db : JobDB) (j : Job) : Bool :=
  !(List.any db (fun r => r.job_id = j.job_id))

/-- `JobDatabase.save_job` (line 151): with `is_new` an
`INSERT OR REPLACE` of the job's fields (with `is_new = true`), otherwise an
update of `last_seen` and `score` on the matching row. -/
def save_job (now : Int) (db : JobDB) (j : Job) (is_new : Bool) : JobDB :=
  if is_new then
    List.filter (fun r => r.job_id ≠ j.job_id) db
      ++ [{ job_id := j.job_id, title := j.title, company := j.company,
            location := j.location, url := j.url, description := j.description,
            posted_date := j.posted_date, experience_level := j.experience_level,
            job_type := j.job_type, salary_range := j.salary_range,
            source := j.source, score := j.score,
            first_seen := now, last_seen := now, is_new := true }]
  else
    List.map (fun r =>
      if r.job_id = j.job_id then { r with last_seen := now, score := j.score }
      else r) db

/-- `JobDatabase.mark_all_as_seen` (line 177): clear every `is_new` flag. -/
def mark_all_as_seen (db : JobDB) : JobDB :=
  List.map (fun r => if r.is_new then { r with is_new := false } else r) db

/-- The run summary dictionary returned by `JobHunter.run` (line 1030),
without the wall-clock `execution_time` entry. -/
structure RunSummary where
  total_scraped : Nat
  qualified_jobs : Nat
  new_jobs : Nat
  dry_run : Bool
deriving DecidableEq, Repr

/-- Everything `JobHunter.run` produces: the summary, the scored qualified
jobs, the new jobs among them, and the database state after the run. -/
structure RunOutput where
  summary : RunSummary
  qualified : List Job
  newJobs : List Job
  db : JobDB

/-- The score-and-filter loop of `JobHunter.run` (line 991): drop excluded
jobs, set each survivor's score, drop those under `min_score`, and classify
the rest as new or previously seen against the (unwritten) database. -/
def scoreFilterLoop (w : ScoringWeights) (f : Filters) (now : Int)
    (db : JobDB) (all_jobs : List Job) : List Job × List Job :=
  all_jobs.foldl (fun acc job =>
    if should_exclude_job f job then acc
    else
      let job := { job with score := score_job w f now job }
      if job.score < w.min_score then acc
      else
        (acc.1 ++ [job],
         if is_new_job db job then acc.2 ++ [job] else acc.2))
    ([], [])

/-- `JobHunter.run` (line 958) after scraping: scoring/filtering, the
database writes guarded by `dry_run`, the `mark_all_as_seen` transition
guarded by `dry_run` and non-emptiness of the new-job list, and the summary
counts. -/
def JobHunter.run (w : ScoringWeights) (f : Filters) (now : Int)
    (db : JobDB) (all_jobs : List Job) (dry_run : Bool) : RunOutput :=
  let qn := scoreFilterLoop w f now db all_jobs
  let qualified_jobs := qn.1
  let new_jobs := qn.2
  let db1 := if dry_run then db
    else qualified_jobs.foldl
      (fun d job => save_job now d job (new_jobs.contains job)) db
  let db2 := if !dry_run && !new_jobs.isEmpty then mark_all_as_seen db1 else db1
  { summary := { total_scraped := all_jobs.length,
                 qualified_jobs := qualified_jobs.length,
                 new_jobs := new_jobs.length,
                 dry_run := dry_run },
    qualified := qualified_jobs,
    newJobs := new_jobs,
    db := db2 }

/-- The `Job` built by `HTMLScraper._scrape_html_site` (line 638): empty
description, `posted_date` set to the scrape time (`datetime.now()`), source
`"html_" ++ site_name`, and no native id, so `__post_init__` derives the
MD5 identity. -/
def htmlScrapedJob (now : Int) (site_name title company location job_url : String) :
    Job :=
  Job.postInit
    { title := title, company := company, location := location, url := job_url,
      description := "", posted_date := some now,
      source := "html_" ++ site_name }

set_option maxRecDepth 40000

/-- Validation of the MD5 embedding against the RFC 1321 test suite. -/
theorem md5Hex_empty_vector : md5Hex "" = "d41d8cd98f00b204e9800998ecf8427e" := by
  decide

/-- Validation of the MD5 embedding against the RFC 1321 test suite. -/
theorem md5Hex_abc_vector : md5Hex "abc" = "900150983cd24fb0d6963f7d28e17f72" := by
  decide

/-- C1 counterexample: a posting built the way `LeverScraper` builds it, with
source `"lever_solana"` and native id `"abc123"`, gets stable identity
`"abc123"` — `__post_init__` keeps the native id untouched — not
`"lever_solana" ++ ":" ++ "abc123"` as the claim states. -/
theorem job_identity_counterexample :
    (Job.postInit
      { title := "Senior Rust Engineer", company := "Full-time",
        location := "Remote", url := "https://jobs.lever.co/solana/abc123",
        description := "Build things", source := "lever_solana",
        job_id := some "abc123" }).job_id = some "abc123" ∧
    (Job.postInit
      { title := "Senior Rust Engineer", company := "Full-time",
        location := "Remote", url := "https://jobs.lever.co/solana/abc123",
        description := "Build things", source := "lever_solana",
        job_id := some "abc123" }).job_id
      ≠ some ("lever_solana" ++ ":" ++ "abc123") := by
  exact ⟨rfl, by decide⟩

/-- C1 (amended): when the source provides a non-empty native identifier the
stable identity is that native id itself (no `source ++ ":"` prefix); when it
provides none, the identity is the MD5 hex fingerprint of
`title ++ "_" ++ company ++ "_" ++ url`, so it is byte-identical across
repeated constructions and depends only on title, company and url. -/
theorem job_identity_amended (j : Job) :
    (∀ s : String, j.job_id = some s → s ≠ "" →
      (Job.postInit j).job_id = some s) ∧
    (j.job_id = none →
      (Job.postInit j).job_id =
        some (md5Hex (j.title ++ "_" ++ j.company ++ "_" ++ j.url))) ∧
    (∀ j' : Job, j.job_id = none → j'.job_id = none →
      j.title = j'.title → j.company = j'.company → j.url = j'.url →
      (Job.postInit j).job_id = (Job.postInit j').job_id) := by
  refine ⟨?_, ?_, ?_⟩
  · intro s hs hne
    simp [Job.postInit, hs, hne]
  · intro h
    simp [Job.postInit, h]
  · intro j' h h' ht hc hu
    simp [Job.postInit, h, h', ht, hc, hu]

/-- C1 witness: the amended identity rule evaluated on concrete postings,
one with a native id and one without. -/
theorem job_identity_amended_witness :
    (Job.postInit
      { title := "Dev", company := "Acme", location := "", url := "https://a/j",
        job_id := some "xyz" }).job_id = some "xyz" ∧
    (Job.postInit
      { title := "Dev", company := "Acme", location := "", url := "https://a/j" }).job_id
      = some (md5Hex ("Dev" ++ "_" ++ "Acme" ++ "_" ++ "https://a/j")) := by
  exact ⟨(job_identity_amended _).1 "xyz" rfl (by decide),
         (job_identity_amended _).2.1 rfl⟩

/-- C2: for every posting and every scoring configuration — the weights need
not sum to 100 and may even be negative — `score_job` lands in `[0, 100]`
because of the final clamp. -/
theorem score_job_bounds (w : ScoringWeights) (f : Filters) (now : Int)
    (j : Job) : 0 ≤ score_job w f now j ∧ score_job w f now j ≤ 100 := by
  unfold score_job
  exact ⟨le_min (by norm_num) (le_max_left 0 _), min_le_left _ _⟩

/-- C9: a posting with an empty title gets title sub-score 0 for every
configuration — in particular when no title keywords are configured, the
empty-title rule wins over the zero-keyword neutral 50. -/
theorem empty_title_scores_zero (f : Filters) :
    score_title_match f "" = 0 := by
  simp [score_title_match]

/-- The configuration of the spec's worked example: title keywords
"solidity" and "engineer", remote-only location preference. -/
def exampleFilters : Filters :=
  { title_keywords := ["solidity", "engineer"],
    location := { remote_only := true } }

/-- Equal 25% weights for the worked example. -/
def exampleWeights : ScoringWeights :=
  { title_match_weight := 25, keyword_match_weight := 25,
    location_match_weight := 25, recency_weight := 25,
    min_score := 0, max_results := 10 }

/-- The worked example's posting: "Senior Solidity Engineer", empty
description, location "Remote", posted at time 0 (scored 2 days later). -/
def exampleJob : Job :=
  { title := "Senior Solidity Engineer", company := "ACME",
    location := "Remote", url := "https://x.example/j",
    posted_date := some 0 }

/-- C7: the worked example — title "Senior Solidity Engineer" against
title_keywords ["solidity", "engineer"], empty description, location
"Remote" under remote_only, posted 2 days before scoring, equal weights of
25 — yields sub-scores 100 / 0 / 100 / 80 and final score exactly 70. -/
theorem worked_example_scores_70 :
    score_title_match exampleFilters exampleJob.title = 100 ∧
    score_keyword_match exampleFilters exampleJob.description = 0 ∧
    score_location_match exampleFilters exampleJob.location = 100 ∧
    score_recency (2 * 86400) exampleJob.posted_date = 80 ∧
    score_job exampleWeights exampleFilters (2 * 86400) exampleJob = 70 := by
  refine ⟨?_, ?_, ?_, ?_, ?_⟩
  · simp +decide [score_title_match, exampleFilters, exampleJob]
  · simp [score_keyword_match, exampleJob]
  · simp +decide [score_location_match, exampleFilters, exampleJob]
  · norm_num [score_recency, exampleJob, Int.fdiv]
  · simp +decide [score_job, score_title_match, score_keyword_match,
      score_location_match, score_recency, exampleFilters, exampleWeights,
      exampleJob]
    norm_num

/-- C10: a posting built by `HTMLScraper._scrape_html_site` carries
`posted_date = now` (the scrape clock), so at that clock its age is 0 days
and the recency sub-score is 100, for every site and every posting. -/
theorem html_job_recency_100 (now : Int)
    (site_name title company location job_url : String) :
    (htmlScrapedJob now site_name title company location job_url).posted_date
      = some now ∧
    score_recency now
      (htmlScrapedJob now site_name title company location job_url).posted_date
      = 100 := by
  have hp : (htmlScrapedJob now site_name title company location job_url).posted_date
      = some now := by
    simp [htmlScrapedJob, Job.postInit]
  refine ⟨hp, ?_⟩
  rw [hp]
  simp [score_recency, Int.sub_self]

/-- Closed form of the `HttpClient.get` attempt loop when the request fails
on every attempt: the result is the last attempt's error, the back-off
sleeps are `2 ^ attempt * request_delay` for all but the last attempt, and
`fuel` attempts are consumed. -/
theorem httpGetLoop_all_fail (fail : Nat → String) (url : String) (d : ℚ) :
    ∀ fuel attempt,
      httpGetLoop (fun _ i => Except.error (fail i)) url d (fuel + 1) attempt
        = (Except.error (fail (attempt + fuel)),
           (List.range fuel).map (fun i => (2 ^ (attempt + i) : ℚ) * d),
           attempt + fuel + 1) := by
  intro fuel
  induction fuel with
  | zero => intro attempt; simp [httpGetLoop]
  | succ n ih =>
    intro attempt
    have step : httpGetLoop (fun _ i => Except.error (fail i)) url d (n + 1 + 1) attempt
        = ((httpGetLoop (fun _ i => Except.error (fail i)) url d (n + 1) (attempt + 1)).1,
           (2 ^ attempt : ℚ) * d ::
             (httpGetLoop (fun _ i => Except.error (fail i)) url d (n + 1) (attempt + 1)).2.1,
           (httpGetLoop (fun _ i => Except.error (fail i)) url d (n + 1) (attempt + 1)).2.2) := rfl
    rw [step, ih (attempt + 1)]
    simp only [Prod.mk.injEq]
    refine ⟨?_, ?_, by omega⟩
    · have h : attempt + 1 + n = attempt + (n + 1) := by omega
      rw [h]
    · rw [List.range_succ_eq_map, List.map_cons, List.map_map]
      simp only [Nat.add_zero, Function.comp_def]
      congr 1
      apply List.map_congr_left
      intro i _
      have h : attempt + 1 + i = attempt + i.succ := by omega
      rw [h]

/-- C3 (amended): when every attempt fails, `HttpClient.get` makes exactly
`max_retries + 1` attempts (numbered from 0), sleeps
`2 ^ attempt * request_delay` after every failed attempt except the last,
raises nothing in between, and after the final attempt re-raises that
attempt's underlying exception unchanged — no wrapper carrying the URL or
the attempt count. -/
theorem httpGet_all_fail (fail : Nat → String) (url : String) (d : ℚ)
    (max_retries : Nat) :
    httpGet (fun _ i => Except.error (fail i)) url d max_retries
      = (Except.error (fail max_retries),
         (List.range max_retries).map (fun i => (2 ^ i : ℚ) * d),
         max_retries + 1) := by
  have h := httpGetLoop_all_fail fail url d max_retries 0
  simpa [httpGet] using h

/-- C3 counterexample: with every attempt failing with the underlying error
"connection timed out", the surfaced exception is that very value — equal
across two different URLs and two different retry budgets (hence attempt
counts 3 and 1) — so `get` does not surface a `FetchError` value carrying
the URL and the attempt count. -/
theorem httpGet_error_counterexample :
    (httpGet (fun _ _ => Except.error "connection timed out")
        "https://api.lever.co/v0/postings/solana" 2 2).1
      = Except.error "connection timed out" ∧
    (httpGet (fun _ _ => Except.error "connection timed out")
        "https://api.greenhouse.io/v1/boards/block/jobs" 2 0).1
      = Except.error "connection timed out" ∧
    (httpGet (fun _ _ => Except.error "connection timed out")
        "https://api.lever.co/v0/postings/solana" 2 2).2.2 = 3 ∧
    (httpGet (fun _ _ => Except.error "connection timed out")
        "https://api.greenhouse.io/v1/boards/block/jobs" 2 0).2.2 = 1 := by
  refine ⟨rfl, rfl, rfl, rfl⟩

/-- C4: `should_exclude_job` is true exactly when, over the lowercase
concatenation of title and description, some configured exclude-keyword is a
(case-insensitive) substring, or some configured required-keyword is not, or
the experience-level allow-list is non-empty and the posting declares a
(non-empty) level whose lowercase form is outside the lowercased list —
each condition independently sufficient. -/
theorem should_exclude_characterization (f : Filters) (j : Job) :
    should_exclude_job f j = true ↔
      (∃ kw ∈ f.exclude_keywords,
        strContains (lowerStr (j.title ++ " " ++ j.description)) (lowerStr kw) = true)
      ∨ (∃ kw ∈ f.required_keywords,
        strContains (lowerStr (j.title ++ " " ++ j.description)) (lowerStr kw) = false)
      ∨ (f.experience_levels ≠ [] ∧ ∃ lvl, j.experience_level = some lvl ∧
          lvl ≠ "" ∧ lowerStr lvl ∉ f.experience_levels.map lowerStr) := by
  cases hj : j.experience_level with
  | none =>
    simp [should_exclude_job, hj, List.any_eq_true, Bool.not_eq_true']
  | some lvl =>
    simp [should_exclude_job, hj, List.any_eq_true, Bool.not_eq_true',
      List.isEmpty_iff, or_assoc]

/-- C5: the location sub-score case analysis — empty location is neutral 50;
an excluded-location substring match vetoes to 0 (before any other rule, so
even when a preferred location also matches); under remote_only a
remote-indicating word gives 100 and its absence 10; otherwise a
preferred-location match gives 100, else neutral 50. -/
theorem location_subscore_cases (f : Filters) (location : String) :
    (location = "" → score_location_match f location = 50) ∧
    (location ≠ "" →
      ((∃ e ∈ f.location.excluded_locations,
          strContains (lowerStr location) (lowerStr e) = true) →
        score_location_match f location = 0) ∧
      ((∀ e ∈ f.location.excluded_locations,
          strContains (lowerStr location) (lowerStr e) = false) →
        (f.location.remote_only = true →
          ((∃ kw ∈ ["remote", "worldwide", "anywhere", "distributed"],
              strContains (lowerStr location) kw = true) →
            score_location_match f location = 100) ∧
          ((∀ kw ∈ ["remote", "worldwide", "anywhere", "distributed"],
              strContains (lowerStr location) kw = false) →
            score_location_match f location = 10)) ∧
        (f.location.remote_only = false →
          ((∃ p ∈ f.location.preferred_locations,
              strContains (lowerStr location) (lowerStr p) = true) →
            score_location_match f location = 100) ∧
          ((∀ p ∈ f.location.preferred_locations,
              strContains (lowerStr location) (lowerStr p) = false) →
            score_location_match f location = 50)))) := by
  refine ⟨fun h => by simp [score_location_match, h], fun hne => ⟨?_, ?_⟩⟩
  · intro hex
    have hx : f.location.excluded_locations.any
        (fun e => strContains (lowerStr location) (lowerStr e)) = true :=
      List.any_eq_true.mpr hex
    simp [score_location_match, hne, hx]
  · intro hall
    have hx : f.location.excluded_locations.any
        (fun e => strContains (lowerStr location) (lowerStr e)) = false :=
      List.any_eq_false.mpr (fun e he => by simp [hall e he])
    refine ⟨fun hro => ⟨?_, ?_⟩, fun hro => ⟨?_, ?_⟩⟩
    · intro hrem
      have hr : (["remote", "worldwide", "anywhere", "distributed"].any
          (fun kw => strContains (lowerStr location) kw)) = true :=
        List.any_eq_true.mpr hrem
      simp [score_location_match, hne, hx, hro, hr]
    · intro hnone
      have hr : (["remote", "worldwide", "anywhere", "distributed"].any
          (fun kw => strContains (lowerStr location) kw)) = false :=
        List.any_eq_false.mpr (fun kw hk => by simp [hnone kw hk])
      simp [score_location_match, hne, hx, hro, hr]
    · intro hpref
      have hp : f.location.preferred_locations.any
          (fun p => strContains (lowerStr location) (lowerStr p)) = true :=
        List.any_eq_true.mpr hpref
      simp [score_location_match, hne, hx, hro, hp]
    · intro hnopref
      have hp : f.location.preferred_locations.any
          (fun p => strContains (lowerStr location) (lowerStr p)) = false :=
        List.any_eq_false.mpr (fun p hpm => by simp [hnopref p hpm])
      simp [score_location_match, hne, hx, hro, hp]

/-- C5 witness: "San Francisco, CA" with excluded ["San Francisco"] and
preferred ["San"] — the veto wins even though a preferred location matches. -/
theorem location_subscore_cases_witness :
    score_location_match
      { location := { excluded_locations := ["San Francisco"],
                      preferred_locations := ["San"] } } "San Francisco, CA" = 0 := by
  exact ((location_subscore_cases
    { location := { excluded_locations := ["San Francisco"],
                    preferred_locations := ["San"] } } "San Francisco, CA").2
      (by decide)).1 ⟨"San Francisco", by decide, by decide⟩

/-- C6: the keyword sub-score — 0 on an empty description (this guard comes
first), neutral 50 when no preferred keywords are configured, otherwise the
fraction of configured preferred-keywords occurring (case-insensitively) in
the description, times 100, capped at 100 (the code's `max(1, total)`
denominator equals `total` here since `total ≠ 0`). -/
theorem keyword_subscore_cases (f : Filters) (description : String) :
    (description = "" → score_keyword_match f description = 0) ∧
    (description ≠ "" → f.preferred_keywords = [] →
      score_keyword_match f description = 50) ∧
    (description ≠ "" → f.preferred_keywords ≠ [] →
      score_keyword_match f description =
        min 100 (((f.preferred_keywords.filter
            (fun kw => strContains (lowerStr description) (lowerStr kw))).length : ℚ)
          / (f.preferred_keywords.length : ℚ) * 100)) := by
  refine ⟨fun h => by simp [score_keyword_match, h],
          fun hne hkw => by simp [score_keyword_match, hne, hkw], ?_⟩
  intro hne hkw
  have hlen : f.preferred_keywords.length ≠ 0 := by
    simpa [List.length_eq_zero] using hkw
  have hmax : max 1 f.preferred_keywords.length = f.preferred_keywords.length :=
    Nat.max_eq_right (Nat.one_le_iff_ne_zero.mpr hlen)
  simp [score_keyword_match, hne, hlen, hmax]

/-- C6 witness: description "Rust and Solidity" against preferred keywords
["rust", "go"] — one of two matches, so the sub-score is 50. -/
theorem keyword_subscore_cases_witness :
    score_keyword_match { preferred_keywords := ["rust", "go"] }
      "Rust and Solidity" = 50 := by
  have h := (keyword_subscore_cases { preferred_keywords := ["rust", "go"] }
    "Rust and Solidity").2.2 (by decide) (by decide)
  rw [h]
  simp +decide
  norm_num

/-- C8: a dry (preview) run leaves the store untouched — no writes and no
seen-flag transition — while producing the same qualified set (with the same
scores), the same new set, and the same three summary counts as a real run
from the same store state. -/
theorem dry_run_read_only (w : ScoringWeights) (f : Filters) (now : Int)
    (db : JobDB) (all_jobs : List Job) :
    (JobHunter.run w f now db all_jobs true).db = db ∧
    (JobHunter.run w f now db all_jobs true).qualified
      = (JobHunter.run w f now db all_jobs false).qualified ∧
    (JobHunter.run w f now db all_jobs true).newJobs
      = (JobHunter.run w f now db all_jobs false).newJobs ∧
    (JobHunter.run w f now db all_jobs true).summary.total_scraped
      = (JobHunter.run w f now db all_jobs false).summary.total_scraped ∧
    (JobHunter.run w f now db all_jobs true).summary.qualified_jobs
      = (JobHunter.run w f now db all_jobs false).summary.qualified_jobs ∧
    (JobHunter.run w f now db all_jobs true).summary.new_jobs
      = (JobHunter.run w f now db all_jobs false).summary.new_jobs := by
  simp [JobHunter.run]

end JobHunterModel
